import Mathlib

/-!
Verification of the HRMS leave-ledger, department and employee operations,
shallowly embedded from `src/hrms-api/routers/leaves.py`,
`src/hrms-api/routers/departments.py`, `src/hrms-api/routers/employees.py`
and the models in `src/hrms-api/models/`.

Dates are modelled as natural numbers (days on a linear calendar); `date`
objects in the code support exactly the order comparisons used here.
Each router operation becomes a function `DB → args → Except ApiError α × DB`
that always carries the resulting store, so that a mutation applied before a
raised exception would be visible in the returned state.
-/

namespace HRMS

/-- Leave types, from `LeaveTypeEnum` in `models/database_models.py`. -/
inductive LeaveType where
  | sick | vacation | personal | unpaid | maternity | paternity
deriving DecidableEq, Repr

/-- Leave statuses, from `LeaveStatusEnum` in `models/database_models.py`. -/
inductive LeaveStatus where
  | pending | approved | rejected | cancelled
deriving DecidableEq, Repr

/-- Employee statuses, from `EmployeeStatusEnum` in `models/database_models.py`. -/
inductive EmployeeStatus where
  | active | inactive | on_leave
deriving DecidableEq, Repr

/-- A department row, from `DepartmentModel` in `models/database_models.py`. -/
structure Department where
  id : Nat
  name : String
  description : String
  manager_id : Option Nat
deriving DecidableEq, Repr

/-- An employee row, from `EmployeeModel` in `models/database_models.py`.
Salary is modelled as a rational; no claim performs salary arithmetic. -/
structure Employee where
  id : Nat
  first_name : String
  last_name : String
  email : String
  phone : String
  department_id : Nat
  position : String
  hire_date : Nat
  salary : Rat
  status : EmployeeStatus
deriving DecidableEq, Repr

/-- A leave-request row, from `LeaveRequestModel` in
`models/database_models.py`.  Note the model has no comments field. -/
structure LeaveRequest where
  id : Nat
  employee_id : Nat
  leave_type : LeaveType
  start_date : Nat
  end_date : Nat
  reason : String
  status : LeaveStatus
  approved_by : Option Nat
  created_at : Nat
deriving DecidableEq, Repr

/-- The relational store: the three tables of `models/database_models.py`. -/
structure DB where
  departments : List Department
  employees : List Employee
  leaves : List LeaveRequest
deriving DecidableEq, Repr

/-- Request body for create, `LeaveRequestCreate` in `models/schemas.py`
(no id, no status, no approver, no creation date can be supplied). -/
structure LeaveRequestCreate where
  employee_id : Nat
  leave_type : LeaveType
  start_date : Nat
  end_date : Nat
  reason : String
deriving DecidableEq, Repr

/-- Request body for update, `LeaveRequestUpdate` in `models/schemas.py`:
every field optional, `none` meaning the field was not supplied
(`model_dump(exclude_unset=True)` drops it). -/
structure LeaveRequestUpdate where
  leave_type : Option LeaveType := none
  start_date : Option Nat := none
  end_date : Option Nat := none
  reason : Option String := none
deriving DecidableEq, Repr

/-- Request body for approve, `LeaveApproval` in `models/schemas.py`. -/
structure LeaveApproval where
  approved : Bool
  approved_by : Nat
  comments : Option String := none
deriving DecidableEq, Repr

/-- The distinct failure kinds raised by the routers, one constructor per
`raise HTTPException` site used by the claims.  The spec's abstract names:
`employeeNotFound`/`leaveNotFound`/`approverNotFound`/`departmentNotFound`
are its `NotFound`, `invalidRange` its `InvalidRange`, `conflict` its
`Conflict`, `invalidState`/`departmentHasEmployees` its `InvalidState`. -/
inductive ApiError where
  | employeeNotFound (id : Nat)
  | invalidRange
  | conflict (overlappingId : Nat)
  | leaveNotFound (id : Nat)
  | invalidState (s : LeaveStatus)
  | approverNotFound (id : Nat)
  | departmentNotFound (id : Nat)
  | departmentHasEmployees
  | storageError
deriving DecidableEq, Repr

/-- `db.query(EmployeeModel).filter(EmployeeModel.id == i).first()`. -/
def findEmployee (db : DB) (i : Nat) : Option Employee :=
  db.employees.find? (fun e => e.id == i)

/-- `db.query(LeaveRequestModel).filter(LeaveRequestModel.id == i).first()`. -/
def findLeave (db : DB) (i : Nat) : Option LeaveRequest :=
  db.leaves.find? (fun lr => lr.id == i)

/-- `db.query(DepartmentModel).filter(DepartmentModel.id == i).first()`. -/
def findDepartment (db : DB) (i : Nat) : Option Department :=
  db.departments.find? (fun d => d.id == i)

/-- The filter of the overlap query in `create_leave_request`
(`routers/leaves.py` lines 115-122): same employee, status pending or
approved, and NOT (stored.end < new.start OR stored.start > new.end). -/
def overlapsReq (req : LeaveRequestCreate) (lr : LeaveRequest) : Bool :=
  lr.employee_id == req.employee_id &&
  (lr.status == LeaveStatus.pending || lr.status == LeaveStatus.approved) &&
  !(decide (lr.end_date < req.start_date) || decide (lr.start_date > req.end_date))

/-- `.first()` of the overlap query in `create_leave_request`. -/
def findOverlapping (db : DB) (req : LeaveRequestCreate) : Option LeaveRequest :=
  db.leaves.find? (overlapsReq req)

/-- Replace the first row with the given id (the ORM mutates the single
object returned by `.first()` in place). -/
def replaceLeave (l : List LeaveRequest) (i : Nat) (lr' : LeaveRequest) :
    List LeaveRequest :=
  match l with
  | [] => []
  | x :: xs => if x.id == i then lr' :: xs else x :: replaceLeave xs i lr'

/-- Remove the first row with the given id (`db.delete` on the object
returned by `.first()`). -/
def eraseDepartment (l : List Department) (i : Nat) : List Department :=
  match l with
  | [] => []
  | x :: xs => if x.id == i then xs else x :: eraseDepartment xs i

/-- Remove the first row with the given id (`db.delete` on the object
returned by `.first()`). -/
def eraseEmployee (l : List Employee) (i : Nat) : List Employee :=
  match l with
  | [] => []
  | x :: xs => if x.id == i then xs else x :: eraseEmployee xs i

/-- `create_leave_request` (`routers/leaves.py` lines 88-146).  `today` is
the value of `date.today()` and `newId` the id the autoincrement column
assigns.  Validation order follows the code: employee existence, then date
range, then overlap; on success one row is appended. -/
def createLeaveRequest (db : DB) (req : LeaveRequestCreate) (today newId : Nat) :
    Except ApiError LeaveRequest × DB :=
  match findEmployee db req.employee_id with
  | none => (Except.error (ApiError.employeeNotFound req.employee_id), db)
  | some _ =>
    if req.end_date < req.start_date then
      (Except.error ApiError.invalidRange, db)
    else
      match findOverlapping db req with
      | some ov => (Except.error (ApiError.conflict ov.id), db)
      | none =>
        let newLeave : LeaveRequest :=
          { id := newId
            employee_id := req.employee_id
            leave_type := req.leave_type
            start_date := req.start_date
            end_date := req.end_date
            reason := req.reason
            status := LeaveStatus.pending
            approved_by := none
            created_at := today }
        (Except.ok newLeave, { db with leaves := db.leaves ++ [newLeave] })

/-- `update_leave_request` (`routers/leaves.py` lines 149-196): lookup,
pending-only guard, effective dates = stored overridden by supplied, range
check, then apply only the supplied fields.  No overlap check. -/
def updateLeaveRequest (db : DB) (leave_id : Nat) (upd : LeaveRequestUpdate) :
    Except ApiError LeaveRequest × DB :=
  match findLeave db leave_id with
  | none => (Except.error (ApiError.leaveNotFound leave_id), db)
  | some lr =>
    if lr.status ≠ LeaveStatus.pending then
      (Except.error (ApiError.invalidState lr.status), db)
    else
      let s := upd.start_date.getD lr.start_date
      let e := upd.end_date.getD lr.end_date
      if e < s then
        (Except.error ApiError.invalidRange, db)
      else
        let lr' : LeaveRequest :=
          { lr with
            leave_type := upd.leave_type.getD lr.leave_type
            start_date := s
            end_date := e
            reason := upd.reason.getD lr.reason }
        (Except.ok lr', { db with leaves := replaceLeave db.leaves leave_id lr' })

/-- `delete_leave_request` (`routers/leaves.py` lines 199-226): lookup,
pending-only guard, then soft-delete by setting status to cancelled. -/
def cancelLeaveRequest (db : DB) (leave_id : Nat) :
    Except ApiError Unit × DB :=
  match findLeave db leave_id with
  | none => (Except.error (ApiError.leaveNotFound leave_id), db)
  | some lr =>
    if lr.status ≠ LeaveStatus.pending then
      (Except.error (ApiError.invalidState lr.status), db)
    else
      let lr' := { lr with status := LeaveStatus.cancelled }
      (Except.ok (), { db with leaves := replaceLeave db.leaves leave_id lr' })

/-- `approve_leave_request` (`routers/leaves.py` lines 229-269): lookup,
pending-only guard, approver existence, then set status and approver.
Comments are never written to the row. -/
def approveLeaveRequest (db : DB) (leave_id : Nat) (approval : LeaveApproval) :
    Except ApiError LeaveRequest × DB :=
  match findLeave db leave_id with
  | none => (Except.error (ApiError.leaveNotFound leave_id), db)
  | some lr =>
    if lr.status ≠ LeaveStatus.pending then
      (Except.error (ApiError.invalidState lr.status), db)
    else
      match findEmployee db approval.approved_by with
      | none => (Except.error (ApiError.approverNotFound approval.approved_by), db)
      | some _ =>
        let lr' : LeaveRequest :=
          { lr with
            status := if approval.approved then LeaveStatus.approved
                      else LeaveStatus.rejected
            approved_by := some approval.approved_by }
        (Except.ok lr', { db with leaves := replaceLeave db.leaves leave_id lr' })

/-- `delete_department` (`routers/departments.py` lines 167-196): lookup,
then fail when any employee row carries this department_id, else remove
the department row. -/
def deleteDepartment (db : DB) (department_id : Nat) :
    Except ApiError Unit × DB :=
  match findDepartment db department_id with
  | none => (Except.error (ApiError.departmentNotFound department_id), db)
  | some _ =>
    let employee_count :=
      (db.employees.filter (fun e => e.department_id == department_id)).length
    if employee_count > 0 then
      (Except.error ApiError.departmentHasEmployees, db)
    else
      (Except.ok (), { db with departments := eraseDepartment db.departments department_id })

/-- Whether any stored row references the employee: as requester of a
leave request (`leave_requests.employee_id`, non-nullable FK), as approver
(`leave_requests.approved_by` FK), or as a department manager
(`departments.manager_id` FK), per `models/database_models.py`. -/
def employeeReferenced (db : DB) (i : Nat) : Bool :=
  db.leaves.any (fun lr => lr.employee_id == i) ||
  db.leaves.any (fun lr => lr.approved_by == some i) ||
  db.departments.any (fun d => d.manager_id == some i)

/-- `delete_employee` (`routers/employees.py` lines 185-203): lookup, then
`db.delete` + `db.commit` with no referential check in the router.  The
commit's outcome follows from the schema in `models/database_models.py`
and the PostgreSQL engine of `database.py`: the cascade-less
`EmployeeModel.leave_requests` relationship nullifies the non-nullable
`leave_requests.employee_id` column of each child (IntegrityError on
flush), and the enforced foreign keys on `leave_requests.approved_by` and
`departments.manager_id` reject deleting a referenced employee.  The
failed transaction rolls back, so a referenced employee's delete
propagates the storage failure (the spec's StorageError) with the store
unchanged; only an unreferenced employee's row is removed. -/
def deleteEmployee (db : DB) (employee_id : Nat) :
    Except ApiError Unit × DB :=
  match findEmployee db employee_id with
  | none => (Except.error (ApiError.employeeNotFound employee_id), db)
  | some _ =>
    if employeeReferenced db employee_id then
      (Except.error ApiError.storageError, db)
    else
      (Except.ok (), { db with employees := eraseEmployee db.employees employee_id })

/-- The row as mutated by `approve_leave_request` on success: status set
from the `approved` flag, approver reference set, all other fields kept
(there is no comments field to set). -/
def approvedRecord (lr : LeaveRequest) (app : LeaveApproval) : LeaveRequest :=
  { lr with
    status := if app.approved then LeaveStatus.approved else LeaveStatus.rejected
    approved_by := some app.approved_by }

/-- The row as mutated by `update_leave_request` on success: supplied
fields applied, unspecified fields kept. -/
def updatedRecord (lr : LeaveRequest) (upd : LeaveRequestUpdate) : LeaveRequest :=
  { lr with
    leave_type := upd.leave_type.getD lr.leave_type
    start_date := upd.start_date.getD lr.start_date
    end_date := upd.end_date.getD lr.end_date
    reason := upd.reason.getD lr.reason }

/-! Concrete rows and stores used to exercise the operations. -/

/-- Example department 1, referenced by both example employees. -/
def dep1 : Department :=
  { id := 1, name := "Engineering", description := "Builds the product",
    manager_id := some 1 }

/-- Example department 2, referenced by no employee. -/
def dep2 : Department :=
  { id := 2, name := "Finance", description := "Budget and payroll",
    manager_id := none }

/-- Example employee 1. -/
def emp1 : Employee :=
  { id := 1, first_name := "Ada", last_name := "Lovelace",
    email := "ada@example.com", phone := "555-0100", department_id := 1,
    position := "Engineer", hire_date := 100, salary := 90000,
    status := EmployeeStatus.active }

/-- Example employee 2. -/
def emp2 : Employee :=
  { id := 2, first_name := "Grace", last_name := "Hopper",
    email := "grace@example.com", phone := "555-0101", department_id := 1,
    position := "Manager", hire_date := 90, salary := 98000,
    status := EmployeeStatus.active }

/-- A pending request of employee 1 over days 10..14. -/
def leave1 : LeaveRequest :=
  { id := 1, employee_id := 1, leave_type := LeaveType.vacation,
    start_date := 10, end_date := 14, reason := "Family trip",
    status := LeaveStatus.pending, approved_by := none, created_at := 5 }

/-- An approved request of employee 1 over days 20..24. -/
def leave2 : LeaveRequest :=
  { id := 2, employee_id := 1, leave_type := LeaveType.sick,
    start_date := 20, end_date := 24, reason := "Surgery recovery",
    status := LeaveStatus.approved, approved_by := some 2, created_at := 6 }

/-- A rejected request of employee 2 over days 10..14. -/
def leave3 : LeaveRequest :=
  { id := 3, employee_id := 2, leave_type := LeaveType.personal,
    start_date := 10, end_date := 14, reason := "House move",
    status := LeaveStatus.rejected, approved_by := some 1, created_at := 7 }

/-- Example employee 3, referenced by no leave request and no department. -/
def emp3 : Employee :=
  { id := 3, first_name := "Alan", last_name := "Turing",
    email := "alan@example.com", phone := "555-0102", department_id := 1,
    position := "Analyst", hire_date := 110, salary := 87000,
    status := EmployeeStatus.active }

/-- The example store. -/
def exDB : DB :=
  { departments := [dep1, dep2], employees := [emp1, emp2],
    leaves := [leave1, leave2, leave3] }

/-- The example store extended with the unreferenced employee 3. -/
def exDB10 : DB :=
  { departments := [dep1, dep2], employees := [emp1, emp2, emp3],
    leaves := [leave1, leave2, leave3] }

/-- A create request for employee 1 sharing endpoint day 14 with `leave1`. -/
def req1 : LeaveRequestCreate :=
  { employee_id := 1, leave_type := LeaveType.vacation,
    start_date := 14, end_date := 18, reason := "Extra days" }

/-- A create request for employee 2 overlapping nothing blocking. -/
def req2 : LeaveRequestCreate :=
  { employee_id := 2, leave_type := LeaveType.personal,
    start_date := 30, end_date := 31, reason := "Errand" }

/-- A create request naming a non-existent employee. -/
def reqBad : LeaveRequestCreate :=
  { employee_id := 77, leave_type := LeaveType.unpaid,
    start_date := 1, end_date := 2, reason := "Sabbatical" }

/-- An update moving `leave1` onto days 20..22, inside `leave2`. -/
def upd5 : LeaveRequestUpdate :=
  { start_date := some 20, end_date := some 22 }

/-- An update supplying a new type and end date only. -/
def upd6 : LeaveRequestUpdate :=
  { leave_type := some LeaveType.sick, end_date := some 16 }

/-- An approval by existing employee 2, with comments. -/
def app4 : LeaveApproval :=
  { approved := true, approved_by := 2, comments := some "Enjoy" }

/-- An approval naming a non-existent approver. -/
def app7 : LeaveApproval :=
  { approved := true, approved_by := 99, comments := none }

/-- The boolean overlap filter agrees with the closed-interval overlap
condition of the spec. -/
theorem overlapsReq_eq_true (req : LeaveRequestCreate) (lr : LeaveRequest) :
    overlapsReq req lr = true ↔
      lr.employee_id = req.employee_id ∧
      (lr.status = LeaveStatus.pending ∨ lr.status = LeaveStatus.approved) ∧
      ¬(lr.end_date < req.start_date ∨ lr.start_date > req.end_date) := by
  simp [overlapsReq, Bool.and_eq_true, Bool.or_eq_true, beq_iff_eq,
    decide_eq_true_eq, not_or, and_assoc]

/-- C1: when the employee exists and the range is well-formed, the presence
of any stored pending/approved request of the same employee whose closed
range intersects the new one makes create fail with Conflict, leaving the
store unchanged; endpoint-sharing ranges count as overlapping. -/
theorem create_conflicts_on_overlap (db : DB) (req : LeaveRequestCreate)
    (today newId : Nat)
    (hemp : (findEmployee db req.employee_id).isSome)
    (hrange : req.start_date ≤ req.end_date)
    (hov : ∃ lr ∈ db.leaves,
      lr.employee_id = req.employee_id ∧
      (lr.status = LeaveStatus.pending ∨ lr.status = LeaveStatus.approved) ∧
      ¬(lr.end_date < req.start_date ∨ lr.start_date > req.end_date)) :
    ∃ i, createLeaveRequest db req today newId =
      (Except.error (ApiError.conflict i), db) := by
  obtain ⟨e, he⟩ := Option.isSome_iff_exists.mp hemp
  obtain ⟨lr, hmem, hcond⟩ := hov
  have hsome : (findOverlapping db req).isSome := by
    rw [findOverlapping, List.find?_isSome]
    exact ⟨lr, hmem, (overlapsReq_eq_true req lr).mpr hcond⟩
  obtain ⟨ov, hov'⟩ := Option.isSome_iff_exists.mp hsome
  refine ⟨ov.id, ?_⟩
  simp [createLeaveRequest, he, hov', Nat.not_lt.mpr hrange]

/-- C2: when the employee exists, the range is well-formed and no stored
pending/approved request of the same employee overlaps it (rejected and
cancelled requests never block), create succeeds; the persisted record has
status pending, approver unset, and creation date equal to the ledger's
current date (`LeaveRequestCreate` carries no creation date, so it cannot
be caller-supplied). -/
theorem create_succeeds_without_overlap (db : DB) (req : LeaveRequestCreate)
    (today newId : Nat)
    (hemp : (findEmployee db req.employee_id).isSome)
    (hrange : req.start_date ≤ req.end_date)
    (hnoov : ∀ lr ∈ db.leaves,
      lr.employee_id = req.employee_id →
      (lr.status = LeaveStatus.pending ∨ lr.status = LeaveStatus.approved) →
      (lr.end_date < req.start_date ∨ lr.start_date > req.end_date)) :
    ∃ r, createLeaveRequest db req today newId =
        (Except.ok r, { db with leaves := db.leaves ++ [r] }) ∧
      r.status = LeaveStatus.pending ∧
      r.approved_by = none ∧
      r.created_at = today := by
  obtain ⟨e, he⟩ := Option.isSome_iff_exists.mp hemp
  have hnone : findOverlapping db req = none := by
    rw [findOverlapping, List.find?_eq_none]
    intro lr hmem
    intro hb
    rcases (overlapsReq_eq_true req lr).mp hb with ⟨h1, h2, h3⟩
    exact h3 (hnoov lr hmem h1 h2)
  refine ⟨{ id := newId, employee_id := req.employee_id,
            leave_type := req.leave_type, start_date := req.start_date,
            end_date := req.end_date, reason := req.reason,
            status := LeaveStatus.pending, approved_by := none,
            created_at := today }, ?_, rfl, rfl, rfl⟩
  simp [createLeaveRequest, he, hnone, Nat.not_lt.mpr hrange]

/-- C3: update, cancel and approve on a request whose stored status is
approved, rejected or cancelled all fail with InvalidState, for every
choice of the other arguments, leaving the store unchanged. -/
theorem nonpending_ops_invalid_state (db : DB) (leave_id : Nat)
    (lr : LeaveRequest) (upd : LeaveRequestUpdate) (app : LeaveApproval)
    (hfind : findLeave db leave_id = some lr)
    (hterm : lr.status = LeaveStatus.approved ∨ lr.status = LeaveStatus.rejected ∨
      lr.status = LeaveStatus.cancelled) :
    updateLeaveRequest db leave_id upd =
      (Except.error (ApiError.invalidState lr.status), db) ∧
    cancelLeaveRequest db leave_id =
      (Except.error (ApiError.invalidState lr.status), db) ∧
    approveLeaveRequest db leave_id app =
      (Except.error (ApiError.invalidState lr.status), db) := by
  have hne : lr.status ≠ LeaveStatus.pending := by
    rcases hterm with h | h | h <;> rw [h] <;> intro hc <;> cases hc
  refine ⟨?_, ?_, ?_⟩ <;>
    simp [updateLeaveRequest, cancelLeaveRequest, approveLeaveRequest, hfind, hne]

/-- C4: approving or rejecting an existing pending request with an existing
approver succeeds; the stored record's status becomes approved when
approved=true and rejected otherwise, its approver reference is set, every
other field is unchanged (so the supplied comments are not persisted — the
stored record has no comments field), and the outcome is independent of the
comments. -/
theorem approve_pending_effect (db : DB) (leave_id : Nat) (lr : LeaveRequest)
    (app : LeaveApproval)
    (hfind : findLeave db leave_id = some lr)
    (hpend : lr.status = LeaveStatus.pending)
    (happr : (findEmployee db app.approved_by).isSome) :
    approveLeaveRequest db leave_id app =
      (Except.ok (approvedRecord lr app),
       { db with leaves := replaceLeave db.leaves leave_id (approvedRecord lr app) }) ∧
    (∀ c : Option String,
      approveLeaveRequest db leave_id { app with comments := c } =
        approveLeaveRequest db leave_id app) := by
  obtain ⟨a, ha⟩ := Option.isSome_iff_exists.mp happr
  constructor
  · simp [approveLeaveRequest, approvedRecord, hfind, hpend, ha]
  · intro c
    simp [approveLeaveRequest]

/-- C5: update never runs the overlap check: an update of an existing
pending request whose effective range intersects another stored pending or
approved request of the same employee still succeeds, in asymmetry with
create. -/
theorem update_ignores_overlap (db : DB) (leave_id : Nat) (lr : LeaveRequest)
    (upd : LeaveRequestUpdate)
    (hfind : findLeave db leave_id = some lr)
    (hpend : lr.status = LeaveStatus.pending)
    (hrange : upd.start_date.getD lr.start_date ≤ upd.end_date.getD lr.end_date)
    (_hov : ∃ other ∈ db.leaves,
      other.id ≠ leave_id ∧
      other.employee_id = lr.employee_id ∧
      (other.status = LeaveStatus.pending ∨ other.status = LeaveStatus.approved) ∧
      ¬(other.end_date < upd.start_date.getD lr.start_date ∨
        other.start_date > upd.end_date.getD lr.end_date)) :
    ∃ r db', updateLeaveRequest db leave_id upd = (Except.ok r, db') := by
  have hnl : ¬ (upd.end_date.getD lr.end_date < upd.start_date.getD lr.start_date) :=
    Nat.not_lt.mpr hrange
  simp only [updateLeaveRequest, hfind, hpend, hnl, ne_eq, not_true_eq_false,
    if_false, ite_false, if_neg hnl]
  exact ⟨_, _, rfl⟩

/-- C6: for an existing pending request, the effective dates are the stored
values overridden by any supplied values; update fails with InvalidRange
exactly when the effective end is before the effective start (store
unchanged), and otherwise succeeds applying only the supplied fields, every
unspecified field keeping its prior value. -/
theorem update_effective_fields (db : DB) (leave_id : Nat) (lr : LeaveRequest)
    (upd : LeaveRequestUpdate)
    (hfind : findLeave db leave_id = some lr)
    (hpend : lr.status = LeaveStatus.pending) :
    updateLeaveRequest db leave_id upd =
      if upd.end_date.getD lr.end_date < upd.start_date.getD lr.start_date then
        (Except.error ApiError.invalidRange, db)
      else
        (Except.ok (updatedRecord lr upd),
         { db with leaves := replaceLeave db.leaves leave_id (updatedRecord lr upd) }) := by
  by_cases h : upd.end_date.getD lr.end_date < upd.start_date.getD lr.start_date
  · simp [updateLeaveRequest, hfind, hpend, h]
  · simp [updateLeaveRequest, updatedRecord, hfind, hpend, h]

/-- C7 amended: approving an existing *pending* request whose approverId
does not resolve fails with the approver-not-found error and leaves the
store unchanged (on a non-pending request the InvalidState check fires
first, see the counterexample). -/
theorem approve_missing_approver (db : DB) (leave_id : Nat)
    (lr : LeaveRequest) (app : LeaveApproval)
    (hfind : findLeave db leave_id = some lr)
    (hpend : lr.status = LeaveStatus.pending)
    (happr : findEmployee db app.approved_by = none) :
    approveLeaveRequest db leave_id app =
      (Except.error (ApiError.approverNotFound app.approved_by), db) := by
  simp [approveLeaveRequest, hfind, hpend, happr]

/-- C7 counterexample: leave request 2 exists but its status is approved
and employee 99 does not exist; approve fails with InvalidState, not with
the approver-not-found error the claim demands for every status. -/
theorem approve_status_precedes_approver_check :
    findLeave exDB 2 = some leave2 ∧
    leave2.status = LeaveStatus.approved ∧
    findEmployee exDB 99 = none ∧
    approveLeaveRequest exDB 2 app7 =
      (Except.error (ApiError.invalidState LeaveStatus.approved), exDB) := by
  refine ⟨by decide, by decide, by decide, by rfl⟩

/-- Create either leaves the store unchanged or returns a success value. -/
theorem create_state_cases (db : DB) (req : LeaveRequestCreate)
    (today newId : Nat) :
    (createLeaveRequest db req today newId).2 = db ∨
    ∃ r, (createLeaveRequest db req today newId).1 = Except.ok r := by
  rcases hfe : findEmployee db req.employee_id with _ | e
  · left; simp [createLeaveRequest, hfe]
  · by_cases hr : req.end_date < req.start_date
    · left; simp [createLeaveRequest, hfe, hr]
    · rcases hov : findOverlapping db req with _ | ov
      · right; simp [createLeaveRequest, hfe, hr, hov]
      · left; simp [createLeaveRequest, hfe, hr, hov]

/-- Update either leaves the store unchanged or returns a success value. -/
theorem update_state_cases (db : DB) (leave_id : Nat)
    (upd : LeaveRequestUpdate) :
    (updateLeaveRequest db leave_id upd).2 = db ∨
    ∃ r, (updateLeaveRequest db leave_id upd).1 = Except.ok r := by
  rcases hf : findLeave db leave_id with _ | lr
  · left; simp [updateLeaveRequest, hf]
  · by_cases hp : lr.status = LeaveStatus.pending
    · by_cases hr : upd.end_date.getD lr.end_date < upd.start_date.getD lr.start_date
      · left; simp [updateLeaveRequest, hf, hp, hr]
      · right; simp [updateLeaveRequest, hf, hp, hr]
    · left; simp [updateLeaveRequest, hf, hp]

/-- Cancel either leaves the store unchanged or returns a success value. -/
theorem cancel_state_cases (db : DB) (leave_id : Nat) :
    (cancelLeaveRequest db leave_id).2 = db ∨
    ∃ r, (cancelLeaveRequest db leave_id).1 = Except.ok r := by
  rcases hf : findLeave db leave_id with _ | lr
  · left; simp [cancelLeaveRequest, hf]
  · by_cases hp : lr.status = LeaveStatus.pending
    · right; simp [cancelLeaveRequest, hf, hp]
    · left; simp [cancelLeaveRequest, hf, hp]

/-- Approve either leaves the store unchanged or returns a success value. -/
theorem approve_state_cases (db : DB) (leave_id : Nat)
    (app : LeaveApproval) :
    (approveLeaveRequest db leave_id app).2 = db ∨
    ∃ r, (approveLeaveRequest db leave_id app).1 = Except.ok r := by
  rcases hf : findLeave db leave_id with _ | lr
  · left; simp [approveLeaveRequest, hf]
  · by_cases hp : lr.status = LeaveStatus.pending
    · rcases ha : findEmployee db app.approved_by with _ | a
      · left; simp [approveLeaveRequest, hf, hp, ha]
      · right; simp [approveLeaveRequest, hf, hp, ha]
    · left; simp [approveLeaveRequest, hf, hp]

/-- C8: every leave-ledger operation is atomic: whenever it fails with any
error, the returned store is identical to the store it was given — no
record is inserted, removed, or modified. -/
theorem ops_atomic_on_error (db : DB) (req : LeaveRequestCreate)
    (today newId leave_id : Nat) (upd : LeaveRequestUpdate)
    (app : LeaveApproval) :
    (∀ err, (createLeaveRequest db req today newId).1 = Except.error err →
      (createLeaveRequest db req today newId).2 = db) ∧
    (∀ err, (updateLeaveRequest db leave_id upd).1 = Except.error err →
      (updateLeaveRequest db leave_id upd).2 = db) ∧
    (∀ err, (cancelLeaveRequest db leave_id).1 = Except.error err →
      (cancelLeaveRequest db leave_id).2 = db) ∧
    (∀ err, (approveLeaveRequest db leave_id app).1 = Except.error err →
      (approveLeaveRequest db leave_id app).2 = db) := by
  refine ⟨?_, ?_, ?_, ?_⟩ <;> intro err herr
  · rcases create_state_cases db req today newId with h | ⟨r, h⟩
    · exact h
    · rw [herr] at h; cases h
  · rcases update_state_cases db leave_id upd with h | ⟨r, h⟩
    · exact h
    · rw [herr] at h; cases h
  · rcases cancel_state_cases db leave_id with h | ⟨r, h⟩
    · exact h
    · rw [herr] at h; cases h
  · rcases approve_state_cases db leave_id app with h | ⟨r, h⟩
    · exact h
    · rw [herr] at h; cases h

/-- C9: deleting an existing department fails with the has-dependents error
exactly when some employee row carries its id, and otherwise succeeds
removing the department row. -/
theorem delete_department_spec (db : DB) (department_id : Nat)
    (hdept : (findDepartment db department_id).isSome) :
    deleteDepartment db department_id =
      if ∃ emp ∈ db.employees, emp.department_id = department_id then
        (Except.error ApiError.departmentHasEmployees, db)
      else
        (Except.ok (),
         { db with departments := eraseDepartment db.departments department_id }) := by
  obtain ⟨d, hd⟩ := Option.isSome_iff_exists.mp hdept
  by_cases h : ∃ emp ∈ db.employees, emp.department_id = department_id
  · rw [if_pos h]
    obtain ⟨emp, hmem, heq⟩ := h
    have hpos : 0 <
        (db.employees.filter (fun e => e.department_id == department_id)).length := by
      have hm : emp ∈ db.employees.filter (fun e => e.department_id == department_id) :=
        List.mem_filter.mpr ⟨hmem, by simp [heq]⟩
      exact List.length_pos.mpr (List.ne_nil_of_mem hm)
    simp [deleteDepartment, hd, hpos]
  · rw [if_neg h]
    have hnil : db.employees.filter (fun e => e.department_id == department_id) = [] := by
      rw [List.filter_eq_nil_iff]
      intro a hmem hbeq
      exact h ⟨a, hmem, by simpa using hbeq⟩
    simp [deleteDepartment, hd, hnil]

/-- C10 counterexample: employee 2 exists and has requested leave 3, yet
deleting them does not succeed retaining the referencing rows: the commit
fails with the storage error and the store is unchanged. -/
theorem delete_employee_referenced_fails :
    (findEmployee exDB 2).isSome ∧
    (∃ lr ∈ exDB.leaves, lr.employee_id = 2) ∧
    deleteEmployee exDB 2 = (Except.error ApiError.storageError, exDB) := by
  refine ⟨by decide, by decide, by rfl⟩

/-- C10 amended: deleting an existing employee removes only the employee
row — departments and leave requests untouched — exactly when no leave
request references the employee as requester or approver and no department
references it as manager; otherwise the commit fails with the storage
error and the store is unchanged, so employee deletion never leaves a
dangling reference behind. -/
theorem delete_employee_checked (db : DB) (employee_id : Nat)
    (hemp : (findEmployee db employee_id).isSome) :
    deleteEmployee db employee_id =
      (if employeeReferenced db employee_id then
        (Except.error ApiError.storageError, db)
       else
        (Except.ok (), { db with employees := eraseEmployee db.employees employee_id })) ∧
    (deleteEmployee db employee_id).2.departments = db.departments ∧
    (deleteEmployee db employee_id).2.leaves = db.leaves := by
  obtain ⟨e, he⟩ := Option.isSome_iff_exists.mp hemp
  by_cases hr : employeeReferenced db employee_id
  · refine ⟨?_, ?_, ?_⟩ <;> simp [deleteEmployee, he, hr]
  · refine ⟨?_, ?_, ?_⟩ <;> simp [deleteEmployee, he, hr]

/-- Witness for C1: the request over days 14..18 shares endpoint day 14
with the pending `leave1` and is rejected with Conflict. -/
theorem create_conflicts_on_overlap_witness :
    ∃ i, createLeaveRequest exDB req1 30 4 =
      (Except.error (ApiError.conflict i), exDB) :=
  create_conflicts_on_overlap exDB req1 30 4 (by decide) (by decide) (by decide)

/-- Witness for C2: the request over days 30..31 for employee 2 conflicts
with nothing blocking and is created pending. -/
theorem create_succeeds_without_overlap_witness :
    ∃ r, createLeaveRequest exDB req2 30 4 =
        (Except.ok r, { exDB with leaves := exDB.leaves ++ [r] }) ∧
      r.status = LeaveStatus.pending ∧
      r.approved_by = none ∧
      r.created_at = 30 :=
  create_succeeds_without_overlap exDB req2 30 4 (by decide) (by decide) (by decide)

/-- Witness for C3: leave request 2 is approved, so update, cancel and
approve all fail with InvalidState. -/
theorem nonpending_ops_invalid_state_witness :
    updateLeaveRequest exDB 2 {} =
      (Except.error (ApiError.invalidState leave2.status), exDB) ∧
    cancelLeaveRequest exDB 2 =
      (Except.error (ApiError.invalidState leave2.status), exDB) ∧
    approveLeaveRequest exDB 2 app4 =
      (Except.error (ApiError.invalidState leave2.status), exDB) :=
  nonpending_ops_invalid_state exDB 2 leave2 {} app4 (by decide) (Or.inl rfl)

/-- Witness for C4: approving pending leave 1 by existing employee 2
persists the approved row with the approver set and no comments stored. -/
theorem approve_pending_effect_witness :
    approveLeaveRequest exDB 1 app4 =
      (Except.ok (approvedRecord leave1 app4),
       { exDB with leaves := replaceLeave exDB.leaves 1 (approvedRecord leave1 app4) }) :=
  (approve_pending_effect exDB 1 leave1 app4 (by decide) rfl (by decide)).1

/-- Witness for C5: moving pending leave 1 onto days 20..22, inside the
approved leave 2 of the same employee, still succeeds. -/
theorem update_ignores_overlap_witness :
    ∃ r db', updateLeaveRequest exDB 1 upd5 = (Except.ok r, db') :=
  update_ignores_overlap exDB 1 leave1 upd5 (by decide) rfl (by decide) (by decide)

/-- Witness for C6: updating pending leave 1 with a new type and end date
applies exactly the supplied fields. -/
theorem update_effective_fields_witness :
    updateLeaveRequest exDB 1 upd6 =
      if upd6.end_date.getD leave1.end_date < upd6.start_date.getD leave1.start_date then
        (Except.error ApiError.invalidRange, exDB)
      else
        (Except.ok (updatedRecord leave1 upd6),
         { exDB with leaves := replaceLeave exDB.leaves 1 (updatedRecord leave1 upd6) }) :=
  update_effective_fields exDB 1 leave1 upd6 (by decide) rfl

/-- Witness for C7 (amended): approving pending leave 1 with non-existent
approver 99 fails with the approver-not-found error. -/
theorem approve_missing_approver_witness :
    approveLeaveRequest exDB 1 app7 =
      (Except.error (ApiError.approverNotFound app7.approved_by), exDB) :=
  approve_missing_approver exDB 1 leave1 app7 (by decide) rfl (by decide)

/-- Witness for C8: each operation, made to fail on the example store,
returns that store unchanged. -/
theorem ops_atomic_on_error_witness :
    (createLeaveRequest exDB reqBad 0 9).2 = exDB ∧
    (updateLeaveRequest exDB 99 ({} : LeaveRequestUpdate)).2 = exDB ∧
    (cancelLeaveRequest exDB 99).2 = exDB ∧
    (approveLeaveRequest exDB 99 app4).2 = exDB := by
  have h := ops_atomic_on_error exDB reqBad 0 9 99 {} app4
  exact ⟨h.1 (ApiError.employeeNotFound 77) rfl,
         h.2.1 (ApiError.leaveNotFound 99) rfl,
         h.2.2.1 (ApiError.leaveNotFound 99) rfl,
         h.2.2.2 (ApiError.leaveNotFound 99) rfl⟩

/-- Witness for C9: department 2 exists and no employee references it, so
the delete succeeds and removes the row. -/
theorem delete_department_spec_witness :
    deleteDepartment exDB 2 =
      if ∃ emp ∈ exDB.employees, emp.department_id = 2 then
        (Except.error ApiError.departmentHasEmployees, exDB)
      else
        (Except.ok (),
         { exDB with departments := eraseDepartment exDB.departments 2 }) :=
  delete_department_spec exDB 2 (by decide)

/-- Witness for C10 (amended): employee 3 exists and is referenced by no
leave request and no department, so the delete removes exactly that row,
leaving departments and leave rows untouched. -/
theorem delete_employee_checked_witness :
    deleteEmployee exDB10 3 =
      (if employeeReferenced exDB10 3 then
        (Except.error ApiError.storageError, exDB10)
       else
        (Except.ok (), { exDB10 with employees := eraseEmployee exDB10.employees 3 })) ∧
    (deleteEmployee exDB10 3).2.departments = exDB10.departments ∧
    (deleteEmployee exDB10 3).2.leaves = exDB10.leaves :=
  delete_employee_checked exDB10 3 (by decide)

end HRMS
